import Mathlib

/-!
Shallow embedding, in Lean 4, of the rate-control core of the
"Udemy Superlearner" browser extension.

Numbers are modelled as exact rationals (ℚ).  JavaScript's
`Math.round(x * 100) / 100` is round half toward positive infinity on the
scaled value, i.e. `⌊x * 100 + 1/2⌋ / 100`.

The content script (`src/unnamed/part_001`) contributes:
  * `DEFAULT_CONFIG`, the configuration record;
  * `findVideoElement`, the video locator over a document modelled as a
    list of video elements in document order;
  * `setPlaybackRate`, the rate-change command (directional branch with
    clamp/wrap then 2-decimal rounding; explicit branch applies the rate
    as given);
  * the keydown dispatcher (`addKeyboardListeners`) modelled as a function
    from a keyboard event to the list of `setPlaybackRate` invocations it
    performs;
  * the `ratechange` listener of `attachVideoListeners`, whose body is
    empty (the source comments out any store write), and `applyStoredRate`.

The popup script (`src/extension/popup/popup.js`) contributes `setRate`
(clamp to `[minRate, maxRate]`, round to 2 decimals, persist), modelled
as `popupSetRate`.
-/

namespace Superlearner

/-- JavaScript `Math.round`: round half toward +∞, as a function ℚ → ℚ. -/
def jsRound (x : ℚ) : ℚ := ⌊x + 1/2⌋

/-- `Math.round(x * 100) / 100`, the 2-decimal rounding used throughout
both scripts. -/
def round2 (x : ℚ) : ℚ := jsRound (x * 100) / 100

/-- A rational exactly representable with 2 decimal digits. -/
def TwoDecimal (x : ℚ) : Prop := ∃ n : ℤ, x = n / 100

/-- Configuration record (`DEFAULT_CONFIG` shape in both scripts). -/
structure Config where
  minRate : ℚ
  maxRate : ℚ
  fineIncrement : ℚ
  coarseIncrement : ℚ
  defaultRate : ℚ
deriving DecidableEq, Repr

/-- The hardcoded default configuration of both scripts. -/
def DEFAULT_CONFIG : Config where
  minRate := 1/2
  maxRate := 3
  fineIncrement := 1/20
  coarseIncrement := 1/4
  defaultRate := 1

/-- Direction of a directional rate-change request
(`'increase'` / `'decrease'`). -/
inductive Direction where
  | increase
  | decrease
deriving DecidableEq, Repr

/-- The `options` argument of `setPlaybackRate`. -/
structure RateOptions where
  coarse : Bool
  wrap : Bool
deriving DecidableEq, Repr

/-- `options.coarse ? config.coarseIncrement : config.fineIncrement`. -/
def incrementOf (config : Config) (opts : RateOptions) : ℚ :=
  if opts.coarse then config.coarseIncrement else config.fineIncrement

/-- The two clamp/wrap `if` statements of `setPlaybackRate`
(content script, the `// Clamp to bounds` block). -/
def clampWrap (config : Config) (wrap : Bool) (newRate : ℚ) : ℚ :=
  let r1 := if newRate > config.maxRate
    then (if wrap then config.minRate else config.maxRate)
    else newRate
  if r1 < config.minRate
    then (if wrap then config.maxRate else config.minRate)
    else r1

/-- The directional branch of `setPlaybackRate`: add or subtract the
selected increment, clamp or wrap at the bounds, round to 2 decimals. -/
def computeDirectionalRate (config : Config) (currentRate : ℚ)
    (d : Direction) (opts : RateOptions) : ℚ :=
  let increment := incrementOf config opts
  let newRate := match d with
    | .increase => currentRate + increment
    | .decrease => currentRate - increment
  round2 (clampWrap config opts.wrap newRate)

/-- `clamp(r, lo, hi)` as the spec uses it; the popup realises it as
`Math.max(lo, Math.min(hi, r))`. -/
def clamp (lo hi x : ℚ) : ℚ := max lo (min hi x)

/- ### Video locator (`findVideoElement`, content script) -/

/-- A `<video>` element with the attributes the content script inspects.
`vjsTech`: has class `vjs-tech` (strategy 1); `inVideoPlayerContainer`:
matches `[data-purpose="video-player"] video` (strategy 2); `preloadAuto`:
matches `video[preload="auto"]` (strategy 3). -/
structure Video where
  vjsTech : Bool
  inVideoPlayerContainer : Bool
  preloadAuto : Bool
  readyState : ℕ
  currentTime : ℚ
  paused : Bool
  playbackRate : ℚ
deriving DecidableEq, Repr

/-- `v.readyState > 0 || v.currentTime > 0 || !v.paused`, the activity
test of strategy 5. -/
def hasActivity (v : Video) : Bool :=
  decide (0 < v.readyState) || decide (0 < v.currentTime) || !v.paused

/-- `findVideoElement()`: the document is its list of video elements in
document order (`querySelector` returns the first match). -/
def findVideoElement (doc : List Video) : Option Video :=
  match doc.find? (fun v => v.vjsTech) with
  | some v => some v
  | none =>
    match doc.find? (fun v => v.inVideoPlayerContainer) with
    | some v => some v
    | none =>
      match doc.find? (fun v => v.preloadAuto) with
      | some v => some v
      | none =>
        if doc.length = 1 then doc.head?
        else
          match doc.find? hasActivity with
          | some v => some v
          | none => doc.head?

/- ### Content-script state and `setPlaybackRate` -/

/-- The slice of the content script's module-level `state` plus the
storage key `udemy_playback_rate` and the page's video elements that
`setPlaybackRate` touches. -/
structure ContentState where
  config : Config
  currentVideo : Option Video
  doc : List Video
  storedRate : ℚ
deriving DecidableEq, Repr

/-- The `rate` argument of `setPlaybackRate`:
`'increase'`, `'decrease'`, or a number. -/
inductive RateArg where
  | increase
  | decrease
  | explicit (r : ℚ)
deriving DecidableEq, Repr

/-- `setPlaybackRate(rate, options)` (content script).  When no video is
found it logs and returns, leaving all state unchanged.  Otherwise the
directional branch computes the clamped/wrapped rounded rate; an explicit
numeric rate is applied as given.  The result is written to the video's
`playbackRate` and persisted via `savePlaybackRate`. -/
def setPlaybackRate (s : ContentState) (arg : RateArg)
    (opts : RateOptions) : ContentState :=
  match (match s.currentVideo with
         | some v => some v
         | none => findVideoElement s.doc) with
  | none => s
  | some video =>
    let rate := match arg with
      | .increase => computeDirectionalRate s.config video.playbackRate .increase opts
      | .decrease => computeDirectionalRate s.config video.playbackRate .decrease opts
      | .explicit r => r
    { s with
        currentVideo := some { video with playbackRate := rate }
        storedRate := rate }

/- ### Popup state and `setRate` -/

/-- The popup's module-level variables plus the storage key it writes. -/
structure PopupState where
  currentConfig : Config
  currentRate : ℚ
  storedRate : ℚ
deriving DecidableEq, Repr

/-- `setRate(rate)` (popup script): clamp to
`[minRate, maxRate]` with `Math.max`/`Math.min`, round to 2 decimals,
persist, and update the displayed current rate. -/
def popupSetRate (s : PopupState) (rate : ℚ) : PopupState :=
  let rate := max s.currentConfig.minRate (min s.currentConfig.maxRate rate)
  let rate := round2 rate
  { s with currentRate := rate, storedRate := rate }

/- ### Synchronizer listeners (`attachVideoListeners`, content script) -/

/-- The `ratechange` listener: it reads the element's live rate and
evaluates the guard, but its body is empty (the store write is commented
out in the source), so the persisted rate is returned unchanged. -/
def ratechangeHandler (storedRate : ℚ) (video : Video)
    (stateCurrentVideo : Option Video) : ℚ :=
  let currentRate := video.playbackRate
  if currentRate ≠ 1 ∨ stateCurrentVideo.map Video.playbackRate = some 1
    then storedRate
    else storedRate

/-- `applyStoredRate`: on readiness/playback events, write the persisted
rate onto the element when it differs; the store itself is only read.
Returns the updated element and the (unchanged) store. -/
def applyStoredRate (storedRate : ℚ) (video : Video) : Video × ℚ :=
  if video.playbackRate ≠ storedRate
    then ({ video with playbackRate := storedRate }, storedRate)
    else (video, storedRate)

/- ### Keyboard dispatcher (`addKeyboardListeners`, content script) -/

/-- The fields of a `keydown` event the listener inspects. -/
structure KeyEvent where
  code : String
  shiftKey : Bool
  ctrlKey : Bool
  altKey : Bool
  targetTag : String
  isContentEditable : Bool
deriving DecidableEq, Repr

/-- One `setPlaybackRate` invocation performed by the keydown listener:
either a directional request with its `coarse`/`wrap` options, or an
explicit preset rate. -/
inductive Invocation where
  | dir (d : Direction) (coarse : Bool) (wrap : Bool)
  | preset (r : ℚ)
deriving DecidableEq, Repr

/-- The fixed preset speed table of the digit-key branch. -/
def speedMap : List ℚ := [1/2, 3/4, 1, 5/4, 3/2, 7/4, 2, 5/2, 3]

/-- `code.startsWith(prefixStr)`, computed on the underlying character
lists. -/
def codeStartsWith (code prefixStr : String) : Bool :=
  code.data.take prefixStr.data.length = prefixStr.data

/-- `parseInt(code.replace('Digit', ''))` for a key code: strip the
5-character `Digit` head and parse the remaining decimal digits, `none`
standing for `NaN`. -/
def parseDigitSuffix (code : String) : Option ℕ :=
  match code.data.drop 5 with
  | [] => none
  | cs =>
    if cs.all (fun c => c.isDigit)
      then some (cs.foldl (fun n c => n * 10 + (c.toNat - 48)) 0)
      else none

/-- The `Shift + Digit` preset branch: parse the digit from the key code,
index the speed table, and invoke an explicit set when the entry is
truthy. -/
def digitInvocations (e : KeyEvent) : List Invocation :=
  if e.shiftKey && codeStartsWith e.code "Digit" && !e.ctrlKey && !e.altKey then
    match parseDigitSuffix e.code with
    | some num =>
      if 1 ≤ num && num ≤ 9 then
        match speedMap.get? (num - 1) with
        | some speed => if speed = 0 then [] else [.preset speed]
        | none => []
      else []
    | none => []
  else []

/-- The keydown listener: events targeting an input, textarea or editable
element are ignored; otherwise each of the five `if` blocks that matches
invokes `setPlaybackRate`, in source order. -/
def keydownInvocations (e : KeyEvent) : List Invocation :=
  if e.targetTag = "INPUT" ∨ e.targetTag = "TEXTAREA" ∨ e.isContentEditable
  then []
  else
    (if e.code = "ArrowRight" && e.shiftKey && !e.ctrlKey && !e.altKey
      then [.dir .increase false true] else []) ++
    (if e.code = "ArrowLeft" && e.shiftKey && !e.ctrlKey && !e.altKey
      then [.dir .decrease false true] else []) ++
    (if e.code = "ArrowRight" && e.shiftKey && e.ctrlKey
      then [.dir .increase true false] else []) ++
    (if e.code = "ArrowLeft" && e.shiftKey && e.ctrlKey
      then [.dir .decrease true false] else []) ++
    digitInvocations e

/- ### Concrete fixtures used by witnesses and counterexamples -/

/-- A generic unmarked `<video>` element. -/
def plainVideo : Video where
  vjsTech := false
  inVideoPlayerContainer := false
  preloadAuto := false
  readyState := 0
  currentTime := 0
  paused := true
  playbackRate := 1

/-- A `<video>` element carrying the Video.js `vjs-tech` marker class. -/
def markedVideo : Video :=
  { plainVideo with vjsTech := true }

/-- A configuration with a lowered `maxRate` of 2, reachable through the
popup's settings fields. -/
def narrowConfig : Config where
  minRate := 1/2
  maxRate := 2
  fineIncrement := 1/20
  coarseIncrement := 1/4
  defaultRate := 1

/-- Content-script state under `narrowConfig` with a tracked video. -/
def narrowState : ContentState where
  config := narrowConfig
  currentVideo := some plainVideo
  doc := [plainVideo]
  storedRate := 1

/-- Content-script state under the default configuration with a tracked
video. -/
def defaultState : ContentState where
  config := DEFAULT_CONFIG
  currentVideo := some plainVideo
  doc := [plainVideo]
  storedRate := 1

/-- A configuration whose `maxRate` (2.005) is not exactly representable
with two decimal digits. -/
def oddMaxConfig : Config where
  minRate := 1/2
  maxRate := 401/200
  fineIncrement := 1/20
  coarseIncrement := 1/4
  defaultRate := 1

/-- Content-script state for a page holding no media element. -/
def emptyDocState : ContentState where
  config := DEFAULT_CONFIG
  currentVideo := none
  doc := []
  storedRate := 1

/-- A popup state under the default configuration. -/
def defaultPopupState : PopupState where
  currentConfig := DEFAULT_CONFIG
  currentRate := 1
  storedRate := 1

/- ### Rounding and clamping lemmas -/

theorem jsRound_intCast (n : ℤ) : jsRound (n : ℚ) = n := by
  unfold jsRound
  rw [add_comm, Int.floor_add_int]
  norm_num

theorem round2_twoDecimal (x : ℚ) : TwoDecimal (round2 x) :=
  ⟨⌊x * 100 + 1/2⌋, rfl⟩

theorem round2_eq_self {x : ℚ} (h : TwoDecimal x) : round2 x = x := by
  obtain ⟨n, rfl⟩ := h
  unfold round2
  rw [div_mul_cancel₀ _ (by norm_num : (100 : ℚ) ≠ 0), jsRound_intCast]

theorem round2_mono {x y : ℚ} (h : x ≤ y) : round2 x ≤ round2 y := by
  unfold round2 jsRound
  have hf : ⌊x * 100 + 1/2⌋ ≤ ⌊y * 100 + 1/2⌋ :=
    Int.floor_le_floor (by linarith)
  have hq : ((⌊x * 100 + 1/2⌋ : ℤ) : ℚ) ≤ ((⌊y * 100 + 1/2⌋ : ℤ) : ℚ) := by
    exact_mod_cast hf
  linarith

theorem clampWrap_mem (config : Config) (w : Bool) (x : ℚ)
    (hmm : config.minRate ≤ config.maxRate) :
    config.minRate ≤ clampWrap config w x ∧
      clampWrap config w x ≤ config.maxRate := by
  unfold clampWrap
  dsimp only
  split_ifs <;> constructor <;> linarith

theorem computeDirectionalRate_mem (config : Config) (currentRate : ℚ)
    (d : Direction) (opts : RateOptions)
    (hmm : config.minRate ≤ config.maxRate)
    (hmin : TwoDecimal config.minRate) (hmax : TwoDecimal config.maxRate) :
    config.minRate ≤ computeDirectionalRate config currentRate d opts ∧
      computeDirectionalRate config currentRate d opts ≤ config.maxRate := by
  unfold computeDirectionalRate
  obtain ⟨h1, h2⟩ :=
    clampWrap_mem config opts.wrap
      (match d with
        | .increase => currentRate + incrementOf config opts
        | .decrease => currentRate - incrementOf config opts) hmm
  constructor
  · calc config.minRate = round2 config.minRate := (round2_eq_self hmin).symm
    _ ≤ _ := round2_mono h1
  · calc round2 _ ≤ round2 config.maxRate := round2_mono h2
    _ = config.maxRate := round2_eq_self hmax

/- ### Claim C1 -/

/-- C1, counterexample: the claim says every explicit-rate request ends
in `clamp(explicitRate, minRate, maxRate)`.  But the content script's
explicit path does not clamp: under a configuration with `maxRate = 2`,
the preset key `Shift+9` dispatches the explicit rate 3, and
`setPlaybackRate` applies and persists 3, while the claimed result is
`clamp(3, 0.5, 2) = 2`. -/
theorem c1_counterexample :
    keydownInvocations ⟨"Digit9", true, false, false, "BODY", false⟩ =
      [.preset 3] ∧
    (setPlaybackRate narrowState (.explicit 3) ⟨false, false⟩).storedRate = 3 ∧
    clamp narrowConfig.minRate narrowConfig.maxRate 3 = 2 ∧
    (3 : ℚ) ≠ 2 := by
  refine ⟨?_, ?_, ?_, by norm_num⟩
  · simp [keydownInvocations, digitInvocations, parseDigitSuffix,
      codeStartsWith, speedMap]
  · simp [setPlaybackRate, narrowState]
  · norm_num [clamp, narrowConfig]

/-- C1, amended: an explicit-rate request committed through the popup
(presets, slider, direct set) persists `round2(clamp(r, minRate,
maxRate))`; an explicit-rate request handled by the content script
(preset keys, `SET_RATE` message) applies and persists the requested
rate unclamped. -/
theorem c1_explicit_set (ps : PopupState) (r : ℚ) (cs : ContentState)
    (v : Video) (opts : RateOptions) (hv : cs.currentVideo = some v) :
    (popupSetRate ps r).storedRate =
      round2 (clamp ps.currentConfig.minRate ps.currentConfig.maxRate r) ∧
    (setPlaybackRate cs (.explicit r) opts).storedRate = r := by
  constructor
  · rfl
  · simp [setPlaybackRate, hv]

/-- C1, witness: `c1_explicit_set` instantiated at the default popup
state and the tracked-video content state, with rate 5. -/
theorem c1_explicit_set_witness :
    (popupSetRate defaultPopupState 5).storedRate =
      round2 (clamp DEFAULT_CONFIG.minRate DEFAULT_CONFIG.maxRate 5) ∧
    (setPlaybackRate defaultState (.explicit 5) ⟨false, false⟩).storedRate = 5 :=
  c1_explicit_set defaultPopupState 5 defaultState plainVideo ⟨false, false⟩ rfl

/- ### Claim C2 -/

/-- C2, counterexample: a single explicit rate-change command delivered
to the content script (e.g. a `SET_RATE {rate: 5}` message) under the
default configuration persists 5, which lies outside `[0.5, 3]`. -/
theorem c2_counterexample :
    (setPlaybackRate defaultState (.explicit 5) ⟨false, false⟩).storedRate = 5 ∧
    ¬((setPlaybackRate defaultState (.explicit 5) ⟨false, false⟩).storedRate ≤
        DEFAULT_CONFIG.maxRate) := by
  have h : (setPlaybackRate defaultState (.explicit 5) ⟨false, false⟩).storedRate = 5 := by
    simp [setPlaybackRate, defaultState]
  refine ⟨h, ?_⟩
  rw [h]
  norm_num [DEFAULT_CONFIG]

/-- C2, amended: provided `minRate ≤ maxRate` and both bounds are exact
2-decimal values, every directional command of the content script and
every popup-committed explicit command leaves the persisted rate within
`[minRate, maxRate]` (so the invariant is preserved along any sequence
of such commands); explicit sets handled by the content script persist
the requested rate unclamped and can leave the invariant violated. -/
theorem c2_rate_invariant (cfg : Config)
    (hmm : cfg.minRate ≤ cfg.maxRate)
    (hmin : TwoDecimal cfg.minRate) (hmax : TwoDecimal cfg.maxRate) :
    (∀ (cs : ContentState) (d : RateArg) (opts : RateOptions),
      cs.config = cfg → (d = .increase ∨ d = .decrease) →
      cfg.minRate ≤ cs.storedRate → cs.storedRate ≤ cfg.maxRate →
      cfg.minRate ≤ (setPlaybackRate cs d opts).storedRate ∧
        (setPlaybackRate cs d opts).storedRate ≤ cfg.maxRate) ∧
    (∀ (ps : PopupState) (r : ℚ), ps.currentConfig = cfg →
      cfg.minRate ≤ (popupSetRate ps r).storedRate ∧
        (popupSetRate ps r).storedRate ≤ cfg.maxRate) := by
  constructor
  · intro cs d opts hcfg hd h1 h2
    subst hcfg
    unfold setPlaybackRate
    cases hv : (match cs.currentVideo with
      | some v => some v
      | none => findVideoElement cs.doc) with
    | none => exact ⟨h1, h2⟩
    | some v =>
      rcases hd with rfl | rfl
      · exact computeDirectionalRate_mem cs.config v.playbackRate .increase opts
          hmm hmin hmax
      · exact computeDirectionalRate_mem cs.config v.playbackRate .decrease opts
          hmm hmin hmax
  · intro ps r hcfg
    subst hcfg
    unfold popupSetRate
    dsimp only
    constructor
    · calc ps.currentConfig.minRate
          = round2 ps.currentConfig.minRate := (round2_eq_self hmin).symm
      _ ≤ _ := round2_mono (le_max_left _ _)
    · refine le_trans (round2_mono ?_) (le_of_eq (round2_eq_self hmax))
      exact max_le hmm (min_le_left _ _)

/-- C2, witness: `c2_rate_invariant` instantiated at the default
configuration, a fine increase on the tracked-video state, and a popup
explicit set of 5. -/
theorem c2_rate_invariant_witness :
    (DEFAULT_CONFIG.minRate ≤
        (setPlaybackRate defaultState .increase ⟨false, true⟩).storedRate ∧
      (setPlaybackRate defaultState .increase ⟨false, true⟩).storedRate ≤
        DEFAULT_CONFIG.maxRate) ∧
    (DEFAULT_CONFIG.minRate ≤ (popupSetRate defaultPopupState 5).storedRate ∧
      (popupSetRate defaultPopupState 5).storedRate ≤ DEFAULT_CONFIG.maxRate) := by
  have h := c2_rate_invariant DEFAULT_CONFIG (by norm_num [DEFAULT_CONFIG])
    ⟨50, by norm_num [DEFAULT_CONFIG]⟩ ⟨300, by norm_num [DEFAULT_CONFIG]⟩
  exact ⟨h.1 defaultState .increase ⟨false, true⟩ rfl (Or.inl rfl)
      (by norm_num [defaultState, DEFAULT_CONFIG])
      (by norm_num [defaultState, DEFAULT_CONFIG]),
    h.2 defaultPopupState 5 rfl⟩

/- ### Claim C3 -/

/-- C3, counterexample: the saturation law as stated fails when
`maxRate` is not an exact 2-decimal value, because the rounding is
applied after the clamp: with `maxRate = 2.005` and
`currentRate = 2.005` (which satisfies `min ≤ currentRate ≤ max`), a
fine increase with `wrap = false` saturates to 2.005 and then rounds up
to 2.01 > `maxRate`. -/
theorem c3_counterexample :
    oddMaxConfig.minRate ≤ 401/200 ∧ (401/200 : ℚ) ≤ oddMaxConfig.maxRate ∧
    computeDirectionalRate oddMaxConfig (401/200) .increase ⟨false, false⟩ =
      201/100 ∧
    ¬(computeDirectionalRate oddMaxConfig (401/200) .increase ⟨false, false⟩ ≤
        oddMaxConfig.maxRate) := by
  norm_num [computeDirectionalRate, clampWrap, round2, jsRound, incrementOf,
    oddMaxConfig]

/-- C3, amended: the saturation law holds whenever the bounds are
themselves exact 2-decimal values: for `min ≤ currentRate ≤ max` with
`TwoDecimal min` and `TwoDecimal max`, a directional increase with
`wrap = false` stays ≤ `max` and a directional decrease with
`wrap = false` stays ≥ `min`. -/
theorem c3_saturation (cfg : Config) (currentRate : ℚ) (opts : RateOptions)
    (_hw : opts.wrap = false)
    (h1 : cfg.minRate ≤ currentRate) (h2 : currentRate ≤ cfg.maxRate)
    (hmin : TwoDecimal cfg.minRate) (hmax : TwoDecimal cfg.maxRate) :
    computeDirectionalRate cfg currentRate .increase opts ≤ cfg.maxRate ∧
    cfg.minRate ≤ computeDirectionalRate cfg currentRate .decrease opts :=
  ⟨(computeDirectionalRate_mem cfg currentRate .increase opts (h1.trans h2)
      hmin hmax).2,
   (computeDirectionalRate_mem cfg currentRate .decrease opts (h1.trans h2)
      hmin hmax).1⟩

/-- C3, witness: `c3_saturation` at the default configuration with a
coarse step from rate 3 (the spec's Scenario B). -/
theorem c3_saturation_witness :
    computeDirectionalRate DEFAULT_CONFIG 3 .increase ⟨true, false⟩ ≤
      DEFAULT_CONFIG.maxRate ∧
    DEFAULT_CONFIG.minRate ≤
      computeDirectionalRate DEFAULT_CONFIG 3 .decrease ⟨true, false⟩ :=
  c3_saturation DEFAULT_CONFIG 3 ⟨true, false⟩ rfl
    (by norm_num [DEFAULT_CONFIG]) (by norm_num [DEFAULT_CONFIG])
    ⟨50, by norm_num [DEFAULT_CONFIG]⟩ ⟨300, by norm_num [DEFAULT_CONFIG]⟩

/- ### Claim C4 -/

/-- C4: wrap law.  For `min ≤ currentRate ≤ max` with `wrap = true`: if
`currentRate + increment > max` the increase yields `round2 min`, and if
`currentRate - increment < min` the decrease yields `round2 max` — the
opposite bound, up to the fixed 2-decimal rounding applied to every
result. -/
theorem c4_wrap (cfg : Config) (currentRate : ℚ) (opts : RateOptions)
    (hw : opts.wrap = true)
    (h1 : cfg.minRate ≤ currentRate) (h2 : currentRate ≤ cfg.maxRate) :
    (cfg.maxRate < currentRate + incrementOf cfg opts →
      computeDirectionalRate cfg currentRate .increase opts =
        round2 cfg.minRate) ∧
    (currentRate - incrementOf cfg opts < cfg.minRate →
      computeDirectionalRate cfg currentRate .decrease opts =
        round2 cfg.maxRate) := by
  constructor
  · intro h
    unfold computeDirectionalRate clampWrap
    dsimp only
    rw [hw]
    rw [if_pos h, if_pos rfl, if_neg (lt_irrefl _)]
  · intro h
    unfold computeDirectionalRate clampWrap
    dsimp only
    rw [hw]
    have hnot : ¬(cfg.maxRate < currentRate - incrementOf cfg opts) :=
      not_lt.mpr (le_of_lt (lt_of_lt_of_le h (h1.trans h2)))
    rw [if_neg hnot, if_pos h, if_pos rfl]

/-- C4, witness: `c4_wrap` at the default configuration — a coarse
wrapped increase from 3 yields `round2 0.5` and a coarse wrapped
decrease from 0.5 yields `round2 3` (the spec's Scenario C and its
mirror). -/
theorem c4_wrap_witness :
    computeDirectionalRate DEFAULT_CONFIG 3 .increase ⟨true, true⟩ =
      round2 DEFAULT_CONFIG.minRate ∧
    computeDirectionalRate DEFAULT_CONFIG (1/2) .decrease ⟨true, true⟩ =
      round2 DEFAULT_CONFIG.maxRate :=
  ⟨(c4_wrap DEFAULT_CONFIG 3 ⟨true, true⟩ rfl (by norm_num [DEFAULT_CONFIG])
      (by norm_num [DEFAULT_CONFIG])).1
      (by norm_num [DEFAULT_CONFIG, incrementOf]),
   (c4_wrap DEFAULT_CONFIG (1/2) ⟨true, true⟩ rfl (by norm_num [DEFAULT_CONFIG])
      (by norm_num [DEFAULT_CONFIG])).2
      (by norm_num [DEFAULT_CONFIG, incrementOf])⟩

/- ### Claim C5 -/

/-- C5: every result of a rate-change computation (directional in the
content script, explicit in the popup) is exactly representable with 2
decimal digits, and ten successive fine increases of 0.05 from rate 1
yield exactly 1.5, with no accumulated drift. -/
theorem c5_rounding :
    (∀ (cfg : Config) (currentRate : ℚ) (d : Direction) (opts : RateOptions),
      TwoDecimal (computeDirectionalRate cfg currentRate d opts)) ∧
    (∀ (ps : PopupState) (r : ℚ), TwoDecimal (popupSetRate ps r).storedRate) ∧
    (fun r => computeDirectionalRate DEFAULT_CONFIG r .increase
      ⟨false, true⟩)^[10] 1 = 3/2 := by
  refine ⟨fun cfg c d o => ?_, fun ps r => ?_, ?_⟩
  · unfold computeDirectionalRate
    exact round2_twoDecimal _
  · unfold popupSetRate
    exact round2_twoDecimal _
  · norm_num [computeDirectionalRate, clampWrap, round2, jsRound, incrementOf,
      DEFAULT_CONFIG, Function.iterate_succ, Function.iterate_zero,
      Function.comp]

/- ### Claim C6 -/

/-- C6: locator priority.  In any document containing both a video
carrying the `vjs-tech` marker class and an unmarked generic video (in
either order), `findVideoElement` returns the marked one; and on a
document with no media element it returns `none`. -/
theorem c6_locator_priority :
    (∀ (m g : Video), m.vjsTech = true → g.vjsTech = false →
      findVideoElement [m, g] = some m ∧ findVideoElement [g, m] = some m) ∧
    findVideoElement [] = none := by
  refine ⟨fun m g hm hg => ⟨?_, ?_⟩, rfl⟩ <;>
    simp [findVideoElement, List.find?, hm, hg]

/-- C6, witness: `c6_locator_priority` applied to the concrete marked
and plain video elements, with the generic one first in document
order. -/
theorem c6_locator_priority_witness :
    findVideoElement [plainVideo, markedVideo] = some markedVideo :=
  (c6_locator_priority.1 markedVideo plainVideo rfl rfl).2

/- ### Claim C7 -/

/-- C7: when no video is tracked and the locator returns `none`, a
rate-change operation of any kind is a no-op: `setPlaybackRate` returns
the state unchanged (in particular the persisted rate is untouched), and
being a total function it raises no error. -/
theorem c7_no_video_skip (s : ContentState) (arg : RateArg)
    (opts : RateOptions) (hcv : s.currentVideo = none)
    (hfind : findVideoElement s.doc = none) :
    setPlaybackRate s arg opts = s := by
  unfold setPlaybackRate
  rw [hcv]
  dsimp only
  rw [hfind]

/-- C7, witness: a fine increase on the empty-document state is a
no-op. -/
theorem c7_no_video_skip_witness :
    setPlaybackRate emptyDocState .increase ⟨false, true⟩ = emptyDocState :=
  c7_no_video_skip emptyDocState .increase ⟨false, true⟩ rfl rfl

/- ### Claim C8 -/

/-- C8: the synchronizer never persists the host page's own rate
changes: the `ratechange` listener evaluates its guard but writes
nothing, leaving the stored rate unchanged for every event; and
`applyStoredRate` only reads the store, pushing the persisted value
forward onto the element. -/
theorem c8_no_persist_on_ratechange :
    (∀ (storedRate : ℚ) (video : Video) (cv : Option Video),
      ratechangeHandler storedRate video cv = storedRate) ∧
    (∀ (storedRate : ℚ) (video : Video),
      (applyStoredRate storedRate video).2 = storedRate ∧
      (applyStoredRate storedRate video).1.playbackRate = storedRate) := by
  constructor
  · intro s v cv
    unfold ratechangeHandler
    dsimp only
    split <;> rfl
  · intro s v
    unfold applyStoredRate
    split_ifs with h
    · exact ⟨rfl, rfl⟩
    · exact ⟨rfl, of_not_not h⟩

/- ### Claim C9 -/

/-- C9: idempotence of explicit set.  Performing the explicit-set
operation twice in succession with the same rate yields the same stored
value as performing it once, both for the popup's `setRate` and for the
content script's `setPlaybackRate`. -/
theorem c9_explicit_idempotent :
    (∀ (ps : PopupState) (r : ℚ),
      (popupSetRate (popupSetRate ps r) r).storedRate =
        (popupSetRate ps r).storedRate) ∧
    (∀ (cs : ContentState) (r : ℚ) (opts : RateOptions),
      (setPlaybackRate (setPlaybackRate cs (.explicit r) opts)
          (.explicit r) opts).storedRate =
        (setPlaybackRate cs (.explicit r) opts).storedRate) := by
  constructor
  · intro ps r
    rfl
  · intro cs r opts
    cases hcv : cs.currentVideo with
    | some v => simp [setPlaybackRate, hcv]
    | none =>
      cases hf : findVideoElement cs.doc with
      | some v => simp [setPlaybackRate, hcv, hf]
      | none => simp [setPlaybackRate, hcv, hf]

/- ### Claim C10 -/

theorem dir_not_mem_digitInvocations (e : KeyEvent) (d : Direction)
    (c w : Bool) : Invocation.dir d c w ∉ digitInvocations e := by
  unfold digitInvocations
  split_ifs
  · cases hp : parseDigitSuffix e.code with
    | none => simp
    | some num =>
      dsimp only
      split_ifs
      · cases hq : speedMap.get? (num - 1) with
        | none => simp
        | some speed =>
          dsimp only
          split_ifs <;> simp
      · simp
  · simp

/-- C10: the keyboard interpreter requests wrap-on-overflow exactly for
fine directional commands and never for coarse ones — every directional
`setPlaybackRate` invocation it issues has `wrap = !coarse`, so
Shift+Arrow (fine) commands wrap and Ctrl+Shift+Arrow (coarse) commands
saturate. -/
theorem c10_wrap_iff_fine (e : KeyEvent) (d : Direction) (c w : Bool)
    (h : Invocation.dir d c w ∈ keydownInvocations e) : w = !c := by
  unfold keydownInvocations at h
  by_cases h0 : e.targetTag = "INPUT" ∨ e.targetTag = "TEXTAREA" ∨
    e.isContentEditable
  · rw [if_pos h0] at h
    simp at h
  · rw [if_neg h0] at h
    simp only [List.mem_append] at h
    rcases h with (((h | h) | h) | h) | h
    · split at h <;> simp_all
    · split at h <;> simp_all
    · split at h <;> simp_all
    · split at h <;> simp_all
    · exact absurd h (dir_not_mem_digitInvocations e d c w)

/-- C10, witness: `c10_wrap_iff_fine` applied to the fine
`Shift+ArrowRight` event, whose dispatched invocation has
`coarse = false` and `wrap = true`. -/
theorem c10_wrap_iff_fine_witness : (true : Bool) = !false :=
  c10_wrap_iff_fine ⟨"ArrowRight", true, false, false, "BODY", false⟩
    .increase false true (by decide)

end Superlearner
